import Mathlib

/-!
Shallow embedding of the reconciliation and provider-selection core of the
cloud-resource-operator repository, together with theorems checking the
natural-language specification against it.

Conventions used throughout:
* Go `error` values are modelled by the inductive type `Err`; a Go function
  returning `(T, error)` becomes a Lean function returning `T × Option Err`
  or `Except Err T` depending on how the call site consumes it.
* Go `time.Duration` values are modelled as `Int` counts of nanoseconds,
  matching the unit of `time.Duration` (so `time.Second * 30` is
  `30 * timeSecond`).
* Go maps are modelled as association lists; indexing a missing key yields
  the zero value, as in Go.
* External calls (the Kubernetes client, the Azure SDK, `os.Setenv`,
  `json.Unmarshal`, the third-party password generator) are modelled by
  outcome parameters supplied in an environment record: one run of a
  function corresponds to one choice of outcomes for the calls it makes.
* A Go run that dereferences a nil pointer or executes `panic` is modelled
  by a distinguished `panicked` outcome constructor.
-/

/-- Model of Go `error` values: a not-found error from the object store,
a plain message error (`errors.New`), or a wrapped error
(`github.com/pkg/errors.Wrap`). -/
inductive Err where
  | notFound (what : String)
  | msg (s : String)
  | wrapped (context : String) (cause : Err)
deriving Repr, DecidableEq

/-- `errorUtil.Wrap` from github.com/pkg/errors: wrapping a nil error
yields nil, wrapping a non-nil error adds context. -/
def wrapOpt (e : Option Err) (context : String) : Option Err :=
  e.map (Err.wrapped context)

/-- Kubernetes ConfigMap as consumed by the core: identity plus the
string-to-string `Data` map. -/
structure ConfigMap where
  name : String
  ns : String
  data : List (String × String)
deriving Repr, DecidableEq

/-- Go map indexing on `ConfigMap.Data`: a missing key yields the zero
value `""`. -/
def ConfigMap.get (cm : ConfigMap) (k : String) : String :=
  (cm.data.lookup k).getD ""

/-- Kubernetes Secret as consumed by the core: identity plus the
data map (byte values modelled as strings). -/
structure Secret where
  name : String
  ns : String
  data : List (String × String)
deriving Repr, DecidableEq

/-- Go map indexing on `Secret.Data`: a missing key yields `""`. -/
def Secret.get (s : Secret) (k : String) : String :=
  (s.data.lookup k).getD ""

/-! ## The `resources` package (src/unnamed/part_000) -/

/-- `time.Second` in the nanosecond model of `time.Duration`. -/
def timeSecond : Int := 1000000000

/-- `ErrorReconcileTime = time.Second * 30` from the `resources` package. -/
def ErrorReconcileTime : Int := timeSecond * 30

/-- `SuccessReconcileTime = time.Second * 60` from the `resources` package. -/
def SuccessReconcileTime : Int := timeSecond * 60

/-- Fold step for parsing a base-10 digit string; any non-digit character
aborts the parse, mirroring `strconv.ParseInt(s, 10, 64)` rejecting the
string. -/
def parseDigitsStep (acc : Option Nat) (c : Char) : Option Nat :=
  match acc with
  | none => none
  | some n => if c.isDigit then some (n * 10 + (c.toNat - 48)) else none

/-- Parse a non-empty list of base-10 digit characters into a `Nat`. -/
def parseDigits (cs : List Char) : Option Nat :=
  match cs with
  | [] => none
  | _ => cs.foldl parseDigitsStep (some 0)

/-- Model of Go `strconv.ParseInt(s, 10, 64)`: an optional sign followed by
at least one base-10 digit, with the value required to fit in int64;
any other input is a parse error (`none`). -/
def parseInt64 (s : String) : Option Int :=
  match s.toList with
  | [] => none
  | c :: rest =>
    let signAndDigits : Bool × List Char :=
      if c = '-' then (true, rest)
      else if c = '+' then (false, rest)
      else (false, c :: rest)
    match parseDigits signAndDigits.2 with
    | none => none
    | some n =>
      let v : Int := if signAndDigits.1 then -(n : Int) else (n : Int)
      if v < -(2 ^ 63) ∨ (2 ^ 63 - 1 : Int) < v then none else some v

/-- `resources.GetForcedReconcileTimeOrDefault`: the first argument models
`os.LookupEnv(EnvForceReconcileTimeout)` (`none` when the variable is
absent).  When the variable parses as an int64 `rt`, the source returns
`time.Duration(rt)`, i.e. `rt` nanoseconds; otherwise the supplied default. -/
def getForcedReconcileTimeOrDefault (envVar : Option String) (defaultTo : Int) : Int :=
  match envVar with
  | some recTime =>
    match parseInt64 recTime with
    | none => defaultTo
    | some rt => rt
  | none => defaultTo

/-- `resources.GeneratePassword`: the argument models the outcome of the
third-party call `password.Generate(32, 10, 0, false, false)`.  On error the
source returns `("", Wrap(err, "error generating password"))`; on success it
returns the generated string with a nil error. -/
def GeneratePassword (gen : Except Err String) : String × Option Err :=
  match gen with
  | .error e => ("", some (Err.wrapped "error generating password" e))
  | .ok s => (s, none)

/-- Count of decimal digit characters in a string. -/
def digitCount (s : String) : Nat :=
  (s.toList.filter Char.isDigit).length

/-- Modelled from the spec: the contract of the out-of-repo third-party
generator `password.Generate(32, 10, 0, false, false)` (sethvargo's
go-password, not part of this repository) — a fixed-length 32-character
string with at least the requested 10 digit characters and no repeated
characters. -/
def generateContract (s : String) : Prop :=
  s.length = 32 ∧ 10 ≤ digitCount s ∧ s.toList.Nodup

instance : DecidablePred generateContract := by
  intro s
  unfold generateContract
  infer_instance

/-! ## The openshift Strategy Configuration Store (second file of src/unnamed/part_003) -/

/-- `StrategyConfig` from the openshift config manager: the raw strategy
JSON blob, kept opaque by the core. -/
structure StrategyConfig where
  rawStrategy : String
deriving Repr, DecidableEq

/-- The object store's ConfigMap contents, modelling the cluster state the
Kubernetes client reads from. -/
structure Cluster where
  configMaps : List ConfigMap
deriving Repr, DecidableEq

/-- Model of `client.Get` on a ConfigMap key: returns the stored object, or
a not-found error when no object with the requested name and namespace
exists. -/
def clusterGetConfigMap (cl : Cluster) (nm ns : String) : Except Err ConfigMap :=
  match cl.configMaps.find? (fun cm => cm.name = nm && cm.ns = ns) with
  | some cm => .ok cm
  | none => .error (.notFound ("configmaps " ++ ns ++ "/" ++ nm ++ " not found"))

/-- `ConfigMapConfigManager.ReadStorageStrategy` from the openshift config
manager: gets the named ConfigMap (an error, not-found included, is wrapped
and returned), reads the resource-type key (empty means "not defined",
an error), unmarshals the payload into a tier-to-strategy map (`unmarshal`
models `json.Unmarshal`; a failure is wrapped and returned), and finally
indexes the map at the tier (a missing or null entry yields Go nil,
modelled as `none`, with a nil error). -/
def readStorageStrategy (cl : Cluster)
    (unmarshal : String → Except Err (List (String × Option StrategyConfig)))
    (configMapName configMapNamespace rt tier : String) :
    Except Err (Option StrategyConfig) :=
  match clusterGetConfigMap cl configMapName configMapNamespace with
  | .error e =>
    .error (.wrapped ("failed to get aws strategy config map " ++ configMapName ++
      " in namespace " ++ configMapNamespace) e)
  | .ok cm =>
    let rawStrategyCfg := cm.get rt
    if rawStrategyCfg = "" then
      .error (.msg ("aws strategy for resource type " ++ rt ++ " is not defined"))
    else
      match unmarshal rawStrategyCfg with
      | .error e =>
        .error (.wrapped ("failed to unmarshal strategy mapping for resource type " ++ rt) e)
      | .ok strategies => .ok ((strategies.lookup tier).getD none)

/-- Default ConfigMap name used by the openshift config manager. -/
def openshiftDefaultConfigMapName : String := "cloud-resources-openshift-strategies"

/-- Default ConfigMap namespace used by the openshift config manager. -/
def openshiftDefaultConfigMapNamespace : String := "kube-system"

example :
    readStorageStrategy ⟨[]⟩ (fun _ => .ok [])
      openshiftDefaultConfigMapName openshiftDefaultConfigMapNamespace "postgres" "production"
      = .error (.wrapped
          ("failed to get aws strategy config map cloud-resources-openshift-strategies" ++
            " in namespace kube-system")
          (.notFound "configmaps kube-system/cloud-resources-openshift-strategies not found")) := by
  rfl

/-! ## The azure provider (src/pkg/providers/azure) -/

/-- `ClusterConfig` from the azure provider: the struct into which the ARO
cluster-configuration ConfigMap payload is parsed. -/
structure ClusterConfig where
  location : String
  resourceGroup : String
  vnetName : String
  subnetName : String
  vnetResourceGroup : String
  securityGroupName : String
deriving Repr, DecidableEq

/-- The Go zero value of `ClusterConfig`, as left by a failed
`json.Unmarshal` on invalid JSON. -/
def ClusterConfig.zero : ClusterConfig := ⟨"", "", "", "", "", ""⟩

/-- `AuthCredentials` from the azure auth manager (the logger field is
omitted; logging is out of scope). -/
structure AuthCredentials where
  tenantID : String
  aadClientID : String
  aadClientSecret : String
  subscriptionID : String
deriving Repr, DecidableEq

/-- The Go zero value of `AuthCredentials`. -/
def AuthCredentials.zero : AuthCredentials := ⟨"", "", "", ""⟩

/-- `AuthCredentials.authEnvVars` from the azure auth manager: parses the
ConfigMap payload into `AuthCredentials` (the `json.Unmarshal` error is
discarded, leaving the zero value on a failed parse), then sets the four
authentication environment variables; a `Setenv` failure is only logged.
The function returns nil unconditionally.  The result collects the log
messages emitted for failed `Setenv` calls and the returned error. -/
def authEnvVars (unmarshalAuth : String → Except Err AuthCredentials)
    (setenv : String → String → Option Err) (config : ConfigMap) :
    List String × Option Err :=
  let creds :=
    match unmarshalAuth (config.get "config") with
    | .ok c => c
    | .error _ => AuthCredentials.zero
  let pairs := [("AZURE_SUBSCRIPTION_ID", creds.subscriptionID),
                ("AZURE_TENANT_ID", creds.tenantID),
                ("AZURE_CLIENT_ID", creds.aadClientID),
                ("AZURE_CLIENT_SECRET", creds.aadClientSecret)]
  let logs := pairs.foldl
    (fun acc p =>
      match setenv p.1 p.2 with
      | some _ => acc ++ ["error setting environment variable for authentication " ++ p.1]
      | none => acc) []
  (logs, none)

/-- The Postgres custom resource as consumed by the azure provider:
its namespaced identity. -/
structure PostgresReq where
  name : String
  ns : String
deriving Repr, DecidableEq

/-- `providers.PostgresDeploymentDetails`: the connection data returned by
a successful `CreatePostgres`. -/
structure PostgresDeploymentDetails where
  username : String
  password : String
  host : String
  database : String
  port : Nat
deriving Repr, DecidableEq

/-- A service endpoint entry of an Azure subnet; the `service` field is a
Go string pointer (`none` models nil). -/
structure ServiceEndpoint where
  service : Option String
deriving Repr, DecidableEq

/-- `SubnetPropertiesFormat` of an Azure subnet, reduced to the fields the
provider dereferences; pointers are modelled as `Option`. -/
structure SubnetProps where
  serviceEndpoints : Option (List ServiceEndpoint)
deriving Repr, DecidableEq

/-- An Azure subnet as returned by the SDK; all fields are pointers. -/
structure Subnet where
  name : Option String
  id : Option String
  props : Option SubnetProps
deriving Repr, DecidableEq

/-- The Go zero value of `network.Subnet` (all pointers nil), as returned
alongside an error by a failed SDK call. -/
def Subnet.zero : Subnet := ⟨none, none, none⟩

/-- `ServerProperties` of an Azure Postgres server, reduced to the field
the provider dereferences. -/
structure ServerProps where
  fullyQualifiedDomainName : Option String
deriving Repr, DecidableEq

/-- An Azure Postgres server as listed by the SDK; the name and the
embedded properties pointer may be nil. -/
structure PgServer where
  name : Option String
  serverProperties : Option ServerProps
deriving Repr, DecidableEq

/-- `postgresql.ServerListResult`: the `Value` field is a pointer to the
slice of servers and is nil on a failed list call. -/
structure ServerListResult where
  value : Option (List PgServer)
deriving Repr, DecidableEq

/-- A server returned by `createorUpdateAzurePostgres`; on a failed create
the SDK returns the zero value, whose `ServerProperties` pointer is nil. -/
structure CreatedServer where
  serverProperties : Option ServerProps
deriving Repr, DecidableEq

/-- External-world outcomes for one run of the azure `CreatePostgres`:
one field per external call the source makes, in source order.
Go calls returning `(value, error)` whose error the source merely logs
keep both components. -/
structure PgEnv where
  createFinalizer : Option Err
  clusterConfigGet : Option ConfigMap × Option Err
  unmarshalClusterConfig : String → Except Err ClusterConfig
  unmarshalAuthCreds : String → Except Err AuthCredentials
  setenv : String → String → Option Err
  generatePassword : Except Err String
  createOrUpdateSecret : Option Err
  getCredSecret : Except Err Secret
  getPostgresClient : Option Err
  listInstances : ServerListResult × Option Err
  createInstance : CreatedServer × Option Err
  getSubnetsClient : Option Err
  getSubnet : Subnet × Option Err
  updateSubnet : Option Err
  createVnetRule : Option Err

/-- `buildDefaultPostgresSecret` from the azure provider: generates a
password; if generation fails the function returns nil (`none`), otherwise
the credentials Secret named `<name>-azure-postgres-credentials` holding
the default user and the generated password. -/
def buildDefaultPostgresSecret (gen : Except Err String) (ps : PostgresReq) : Option Secret :=
  match GeneratePassword gen with
  | (_, some _) => none
  | (pw, none) =>
    some { name := ps.name ++ "-azure-postgres-credentials"
           ns := ps.ns
           data := [("user", "postgres"), ("password", pw)] }

/-- The instance-scan loop of `CreatePostgres`: for each listed server it
dereferences the server's name pointer, and on a name match dereferences the
embedded `ServerProperties` pointer and the `FullyQualifiedDomainName`
pointer; a nil dereference is a panic (`Except.error` carries the reason). -/
def scanForHost (nm : String) : List PgServer → Except String (Option String)
  | [] => .ok none
  | s :: rest =>
    match s.name with
    | none => .error "nil pointer dereference: server name"
    | some n =>
      if nm = n then
        match s.serverProperties with
        | none => .error "nil pointer dereference: server properties"
        | some props =>
          match props.fullyQualifiedDomainName with
          | none => .error "nil pointer dereference: server fqdn"
          | some h => .ok (some h)
      else scanForHost nm rest

/-- The service-endpoint scan of `CreatePostgres`: dereferences each
endpoint's `Service` pointer until the `Microsoft.Sql` endpoint is found;
a nil pointer is a panic. -/
def hasSqlEndpoint : List ServiceEndpoint → Except String Bool
  | [] => .ok false
  | e :: rest =>
    match e.service with
    | none => .error "nil pointer dereference: service endpoint"
    | some s => if s = "Microsoft.Sql" then .ok true else hasSqlEndpoint rest

/-- The cluster-configuration parse step of `CreatePostgres`: the source
calls `json.Unmarshal([]byte(payload), &clusterConfig)` and ignores the
returned error, so on invalid JSON the variable keeps its zero value. -/
def parsedClusterConfig (unmarshal : String → Except Err ClusterConfig)
    (payload : String) : ClusterConfig :=
  match unmarshal payload with
  | .ok c => c
  | .error _ => ClusterConfig.zero

/-- Tags for the external calls of the azure `CreatePostgres`, in source
order; the instance-creation tag records the resource group and location
arguments the provider passes to the SDK. -/
inductive Call where
  | createFinalizer
  | getClusterConfig
  | setAuthEnvVars
  | createOrUpdateSecret
  | getCredSecret
  | getPostgresClient
  | listPostgresInstances
  | createPostgresInstance (resourceGroup : String) (location : String)
  | getSubnetsClient
  | getSubnet
  | updateSubnet
  | createVnetRule
deriving Repr, DecidableEq

/-- Result of one run of `CreatePostgres`: either a normal Go return of
`(*PostgresInstance, StatusMessage, error)` (the instance pointer modelled
as `Option` of its deployment details), or a run that panicked. -/
inductive PgOutcome where
  | ret (details : Option PostgresDeploymentDetails) (statusMsg : String) (e : Option Err)
  | panicked (why : String)
deriving Repr, DecidableEq

/-- Whether a run ended in a panic rather than a normal return. -/
def PgOutcome.isPanic : PgOutcome → Bool
  | .panicked _ => true
  | .ret _ _ _ => false

/-- The part of the azure `CreatePostgres` after the finalizer step,
mirroring the source statement by statement (src/pkg/providers/azure/
provider_postgres.go): cluster-config read (error only logged), config
parse with the unmarshal error ignored, `authEnvVars` (error branch dead
since it returns nil), credentials-secret create-or-update (error
returned; a nil secret from a failed password generation is dereferenced
by `controllerutil.CreateOrUpdate` for its object key — a panic),
credential read-back (error returned; an empty password returns with
`Wrap(nil, ..) = nil`), instance listing with the error ignored and the
possibly-nil `Value` dereferenced, creation when no instance matches
(error only logged, then the result dereferenced), subnet read and
service-endpoint update, subnet write and vnet-rule write (errors only
logged), ending in the `"completed"` return with a nil error. -/
def createPostgresAfterFinalizer (env : PgEnv) (ps : PostgresReq) : List Call × PgOutcome :=
  let t0 := [Call.getClusterConfig]
  match env.clusterConfigGet.1 with
  | none => (t0, .panicked "nil pointer dereference: cluster config map")
  | some clusterConfigMap =>
    let clusterConfig :=
      parsedClusterConfig env.unmarshalClusterConfig (clusterConfigMap.get "config")
    let t1 := t0 ++ [Call.setAuthEnvVars]
    let _ := authEnvVars env.unmarshalAuthCreds env.setenv clusterConfigMap
    match buildDefaultPostgresSecret env.generatePassword ps with
    | none => (t1, .panicked "nil pointer dereference: secret object key")
    | some sec =>
      let t2 := t1 ++ [Call.createOrUpdateSecret]
      match env.createOrUpdateSecret with
      | some e =>
        let errMsg := "failed to create or update secret " ++ sec.name
        (t2, .ret none errMsg (some (Err.wrapped errMsg e)))
      | none =>
        let t3 := t2 ++ [Call.getCredSecret]
        match env.getCredSecret with
        | .error e =>
          (t3, .ret none "failed to retrieve rds credential secret"
            (some (Err.wrapped "failed to retrieve rds credential secret" e)))
        | .ok credSec =>
          let postgresPass := credSec.get "password"
          if postgresPass = "" then
            (t3, .ret none "unable to retrieve rds password"
              (wrapOpt none "unable to retrieve rds password"))
          else
            let t4 := t3 ++ [Call.getPostgresClient, Call.listPostgresInstances]
            match (env.listInstances.1).value with
            | none => (t4, .panicked "nil pointer dereference: server list value")
            | some instances =>
              match scanForHost ps.name instances with
              | .error why => (t4, .panicked why)
              | .ok hostOpt =>
                let afterHost : List Call × Except String String :=
                  if hostOpt.getD "" = "" then
                    let t5 := t4 ++
                      [Call.createPostgresInstance clusterConfig.resourceGroup
                        clusterConfig.location]
                    match (env.createInstance.1).serverProperties with
                    | none => (t5, .error "nil pointer dereference: created server properties")
                    | some props =>
                      match props.fullyQualifiedDomainName with
                      | none => (t5, .error "nil pointer dereference: created server fqdn")
                      | some h => (t5, .ok h)
                  else (t4, .ok (hostOpt.getD ""))
                match afterHost.2 with
                | .error why => (afterHost.1, .panicked why)
                | .ok postgresHost =>
                  let t6 := afterHost.1 ++ [Call.getSubnetsClient, Call.getSubnet]
                  let subnet := env.getSubnet.1
                  match subnet.props with
                  | none => (t6, .panicked "nil pointer dereference: subnet properties format")
                  | some props =>
                    match props.serviceEndpoints with
                    | none => (t6, .panicked "nil pointer dereference: subnet service endpoints")
                    | some endpoints =>
                      match hasSqlEndpoint endpoints with
                      | .error why => (t6, .panicked why)
                      | .ok _ =>
                        match subnet.name with
                        | none => (t6, .panicked "nil pointer dereference: subnet name")
                        | some _ =>
                          match subnet.id with
                          | none => (t6, .panicked "nil pointer dereference: subnet id")
                          | some _ =>
                            let t7 := t6 ++ [Call.updateSubnet, Call.createVnetRule]
                            (t7, .ret
                              (some { username := "postgres"
                                      password := postgresPass
                                      host := postgresHost
                                      database := "postgres"
                                      port := 5432 })
                              "completed" none)

/-- `PostgresProvider.CreatePostgres` from the azure provider: the
provider-specific finalizer is ensured first via `resources.CreateFinalizer`
and a failure returns immediately with the error; every later step is in
`createPostgresAfterFinalizer`. -/
def CreatePostgres (env : PgEnv) (ps : PostgresReq) : List Call × PgOutcome :=
  match env.createFinalizer with
  | some e => ([Call.createFinalizer], .ret none "failed to set finalizer" (some e))
  | none =>
    let r := createPostgresAfterFinalizer env ps
    (Call.createFinalizer :: r.1, r.2)

/-- Result of one call of `DeletePostgres`: a normal Go return of
`(StatusMessage, error)` or a panic. -/
inductive DelOutcome where
  | ret (statusMsg : String) (e : Option Err)
  | panicked (why : String)
deriving Repr, DecidableEq

/-- Whether a `DeletePostgres` call panicked. -/
def DelOutcome.isPanic : DelOutcome → Bool
  | .panicked _ => true
  | .ret _ _ => false

/-- `PostgresProvider.DeletePostgres` from the azure provider
(src/pkg/providers/azure/provider_postgres.go and the src/unnamed/part_002
variant alike): the body is exactly `panic("implement me")`. -/
def DeletePostgres (_ps : PostgresReq) : DelOutcome :=
  .panicked "implement me"

/-- `ConfigMapConfigManager.buildDefaultConfigMap` from the azure config
manager: an empty ConfigMap carrying the manager's name and namespace. -/
def buildDefaultConfigMap (nm ns : String) : ConfigMap :=
  { name := nm, ns := ns, data := [] }

/-- Modelled from the spec: `resources.GetConfigMapOrDefault` is absent
from src (only its caller is present); per the spec the config read
"resolves a named configuration object by (name, namespace); if not found,
synthesizes and returns an empty default rather than failing". -/
def getConfigMapOrDefault (cl : Cluster) (nm ns : String) (dflt : ConfigMap) :
    Except Err ConfigMap :=
  match clusterGetConfigMap cl nm ns with
  | .ok cm => .ok cm
  | .error _ => .ok dflt

/-- `ConfigMapConfigManager.GetClusterConfig` from the azure config
manager: delegates to `GetConfigMapOrDefault` with the manager's default
ConfigMap. -/
def getClusterConfig (cl : Cluster) (nm ns : String) : Except Err ConfigMap :=
  getConfigMapOrDefault cl nm ns (buildDefaultConfigMap nm ns)

/-! ## The SMTPCredentialSet reconciler

The controller's `reconcile` function is not under src — only its test
(src/pkg/controller/smtpcredentialset/smtpcredentialset_controller_test.go)
is — so the reconcile entry point below is modelled from the spec. -/

/-- The `SMTPCredentialSet` custom resource as the reconciler consumes it:
identity, tier, type, secret reference, and whether a deletion timestamp is
set. -/
structure SMTPCredentialSet where
  name : String
  ns : String
  tier : String
  rtype : String
  secretRef : String
  deletionPending : Bool
deriving Repr, DecidableEq

/-- `providers.DeploymentStrategyMapping` as the test consumes it: the
strategy name resolved for the smtpcredentials resource type. -/
structure DeploymentStrategyMapping where
  smtpCredentials : String
deriving Repr, DecidableEq

/-- A model of one `providers.SMTPCredentialsProvider`: its name, strategy
support predicate, the outcome of its create call (deployment details data
on success), the outcome of its delete call, and its reconcile interval. -/
structure SMTPProviderModel where
  name : String
  supports : String → Bool
  createResult : Except Err (List (String × String))
  deleteResult : Option Err
  reconcileTime : Int

/-- `reconcile.Result`: the requeue flag and requeue-after duration
returned to the external scheduler. -/
structure ReconcileResult where
  requeue : Bool
  requeueAfter : Int
deriving Repr, DecidableEq

/-- Modelled from the spec: the SMTPCredentialSet controller reconcile
entry point is absent from src (only its test is present).  Per the spec:
load the object (not-found is terminal success); on the deletion branch
call the provider's delete (failure keeps the finalizer and retries after
the short error interval); otherwise ensure the finalizer (a persistence
failure is an overall reconcile failure), resolve the strategy mapping and
select the first provider supporting the strategy (both failures are
logged and produce a short-interval retry without an error), invoke create
(an error surfaces as the reconcile error with the short retry interval),
materialize the returned details into the target secret and persist the
success status (a write failure is an overall reconcile failure), and on
full success requeue after the provider's reconcile interval. -/
def smtpReconcile (objects : List SMTPCredentialSet) (reqNs reqName : String)
    (providerList : List SMTPProviderModel)
    (getStrategyMapping : Except Err DeploymentStrategyMapping)
    (ensureFinalizer : Option Err) (secretWrite : Option Err) (statusWrite : Option Err) :
    ReconcileResult × Option Err :=
  match objects.find? (fun o => o.ns = reqNs && o.name = reqName) with
  | none => ({ requeue := false, requeueAfter := 0 }, none)
  | some obj =>
    if obj.deletionPending then
      match getStrategyMapping with
      | .error _ => ({ requeue := true, requeueAfter := ErrorReconcileTime }, none)
      | .ok mapping =>
        match providerList.find? (fun p => p.supports mapping.smtpCredentials) with
        | none => ({ requeue := true, requeueAfter := ErrorReconcileTime }, none)
        | some p =>
          match p.deleteResult with
          | some e => ({ requeue := true, requeueAfter := ErrorReconcileTime }, some e)
          | none => ({ requeue := false, requeueAfter := 0 }, none)
    else
      match ensureFinalizer with
      | some e => ({ requeue := true, requeueAfter := ErrorReconcileTime }, some e)
      | none =>
        match getStrategyMapping with
        | .error _ => ({ requeue := true, requeueAfter := ErrorReconcileTime }, none)
        | .ok mapping =>
          match providerList.find? (fun p => p.supports mapping.smtpCredentials) with
          | none => ({ requeue := true, requeueAfter := ErrorReconcileTime }, none)
          | some p =>
            match p.createResult with
            | .error e => ({ requeue := true, requeueAfter := ErrorReconcileTime }, some e)
            | .ok _details =>
              match secretWrite with
              | some e => ({ requeue := true, requeueAfter := ErrorReconcileTime }, some e)
              | none =>
                match statusWrite with
                | some e => ({ requeue := true, requeueAfter := ErrorReconcileTime }, some e)
                | none => ({ requeue := true, requeueAfter := p.reconcileTime }, none)

/-! ## Concrete fixtures shared by the theorems below -/

/-- The managed object of the end-to-end test scenario. -/
def testSMTPObject : SMTPCredentialSet :=
  { name := "test", ns := "test", tier := "test", rtype := "test"
    secretRef := "test", deletionPending := false }

/-- The scenario provider: supports strategy "test", creates deployment
details mapping "test" to "test", and reports the 30-second default
reconcile interval (`GetForcedReconcileTimeOrDefault(time.Second * 30)`
with the override variable absent, as the azure provider does). -/
def testSMTPProvider : SMTPProviderModel :=
  { name := "test"
    supports := fun s => s == "test"
    createResult := .ok [("test", "test")]
    deleteResult := none
    reconcileTime := getForcedReconcileTimeOrDefault none (timeSecond * 30) }

/-- A generated password fixture: 32 distinct characters, ten of them
digits, satisfying the generator's contract. -/
def testPassword : String := "abcdefghijklmnopqrstuv0123456789"

/-- The ARO cluster-configuration ConfigMap fixture. -/
def testClusterCM : ConfigMap :=
  { name := "cloud-provider-config", ns := "openshift-config"
    data := [("config", "config-payload")] }

/-- The parsed cluster configuration fixture. -/
def testClusterConfig : ClusterConfig :=
  { location := "eastus", resourceGroup := "test-rg", vnetName := "test-vnet"
    subnetName := "worker-subnet", vnetResourceGroup := "test-vnet-rg"
    securityGroupName := "test-nsg" }

/-- The credentials Secret the provider reads back after persisting it. -/
def testCredSecret : Secret :=
  { name := "test-azure-postgres-credentials", ns := "test"
    data := [("user", "postgres"), ("password", testPassword)] }

/-- A fully healthy external world for one `CreatePostgres` run: every
call succeeds and every pointer the source dereferences is non-nil. -/
def baseEnv : PgEnv :=
  { createFinalizer := none
    clusterConfigGet := (some testClusterCM, none)
    unmarshalClusterConfig := fun _ => .ok testClusterConfig
    unmarshalAuthCreds := fun _ => .ok ⟨"tenant", "client", "secret", "sub"⟩
    setenv := fun _ _ => none
    generatePassword := .ok testPassword
    createOrUpdateSecret := none
    getCredSecret := .ok testCredSecret
    getPostgresClient := none
    listInstances := (⟨some [⟨some "test", some ⟨some "test.example.com"⟩⟩]⟩, none)
    createInstance := (⟨some ⟨some "created.example.com"⟩⟩, none)
    getSubnetsClient := none
    getSubnet := (⟨some "worker-subnet", some "subnet-id",
                   some ⟨some [⟨some "Microsoft.Sql"⟩]⟩⟩, none)
    updateSubnet := none
    createVnetRule := none }

/-! ## Claims -/

/-- Claim C1: for the end-to-end scenario — managed object
(namespace test, name test, tier test, type test, secretRef test), a
configuration mapping type test and tier test to strategy "test", and a
single provider supporting strategy "test" whose create succeeds with
deployment details mapping "test" to "test" — the first call of the
reconcile entry point returns requeue true with a 30-second requeue-after
and a nil error. -/
theorem claim_C1 :
    smtpReconcile [testSMTPObject] "test" "test" [testSMTPProvider]
      (.ok ⟨"test"⟩) none none none
      = ({ requeue := true, requeueAfter := timeSecond * 30 }, none) := by
  decide

/-- Claim C2 counterexample: with the named strategy configuration object
absent from the object store, `ReadStorageStrategy` returns a wrapped
not-found error — not an empty default mapping with a nil error as the
claim states. -/
theorem claim_C2_counterexample :
    readStorageStrategy ⟨[]⟩ (fun _ => .ok [])
      openshiftDefaultConfigMapName openshiftDefaultConfigMapNamespace "postgres" "production"
      = .error (.wrapped
          ("failed to get aws strategy config map cloud-resources-openshift-strategies" ++
            " in namespace kube-system")
          (.notFound "configmaps kube-system/cloud-resources-openshift-strategies not found")) := by
  rfl

/-- Claim C2 amended: for every resource type and tier, when the named
strategy configuration object does not exist (or its read fails for any
reason), `ReadStorageStrategy` returns the wrapped read error rather than
an empty default mapping. -/
theorem claim_C2 (cl : Cluster)
    (unm : String → Except Err (List (String × Option StrategyConfig)))
    (nm ns rt tier : String) (e : Err)
    (hget : clusterGetConfigMap cl nm ns = .error e) :
    readStorageStrategy cl unm nm ns rt tier
      = .error (.wrapped ("failed to get aws strategy config map " ++ nm ++
          " in namespace " ++ ns) e) := by
  unfold readStorageStrategy
  rw [hget]

/-- Claim C2 witness: the amended statement applied to an empty store. -/
theorem claim_C2_witness :
    readStorageStrategy ⟨[]⟩ (fun _ => .ok []) "strategies" "operator-ns" "postgres" "dev"
      = .error (.wrapped
          "failed to get aws strategy config map strategies in namespace operator-ns"
          (.notFound "configmaps operator-ns/strategies not found")) :=
  claim_C2 ⟨[]⟩ (fun _ => .ok []) "strategies" "operator-ns" "postgres" "dev"
    (.notFound "configmaps operator-ns/strategies not found") (by rfl)

/-- Claim C3 counterexample: `DeletePostgres` panics on a concrete
request, so it is not the case that no error path of the provider's
lifecycle operations causes a panic. -/
theorem claim_C3_counterexample :
    (DeletePostgres ⟨"test", "test"⟩).isPanic = true := by
  rfl

/-- Claim C3 amended: the finalizer error path of `CreatePostgres`
returns an error value without panicking, but `DeletePostgres` is an
unimplemented stub that panics with "implement me" on every call, so not
every error path avoids terminating the reconciling process. -/
theorem claim_C3 :
    (∀ ps : PostgresReq, DeletePostgres ps = .panicked "implement me")
    ∧ ∀ (env : PgEnv) (ps : PostgresReq) (e : Err), env.createFinalizer = some e →
        CreatePostgres env ps
          = ([Call.createFinalizer], .ret none "failed to set finalizer" (some e)) := by
  constructor
  · intro ps
    rfl
  · intro env ps e h
    unfold CreatePostgres
    rw [h]

/-- Claim C3 witness: the amended statement applied to a run whose
finalizer write fails. -/
theorem claim_C3_witness :
    CreatePostgres { baseEnv with createFinalizer := some (.msg "finalizer write failed") }
      ⟨"test", "test"⟩
      = ([Call.createFinalizer],
         .ret none "failed to set finalizer" (some (.msg "finalizer write failed"))) :=
  claim_C3.2 _ ⟨"test", "test"⟩ (.msg "finalizer write failed") rfl

/-- Claim C4: `CreatePostgres` ensures the finalizer before any other
external call — the finalizer call is the first entry of every run's call
trace — and when setting the finalizer fails it returns the error
immediately, its trace containing no provisioning call. -/
theorem claim_C4 (env : PgEnv) (ps : PostgresReq) :
    (CreatePostgres env ps).1.head? = some Call.createFinalizer
    ∧ ∀ e : Err, env.createFinalizer = some e →
        CreatePostgres env ps
          = ([Call.createFinalizer], .ret none "failed to set finalizer" (some e)) := by
  constructor
  · unfold CreatePostgres
    cases h : env.createFinalizer <;> simp
  · intro e h
    unfold CreatePostgres
    rw [h]

/-- Claim C4 witness: the statement applied to a run whose finalizer
write fails with a concrete error. -/
theorem claim_C4_witness :
    (CreatePostgres { baseEnv with createFinalizer := some (.msg "cannot persist finalizer") }
        ⟨"pg", "prod"⟩).1.head? = some Call.createFinalizer
    ∧ CreatePostgres { baseEnv with createFinalizer := some (.msg "cannot persist finalizer") }
        ⟨"pg", "prod"⟩
        = ([Call.createFinalizer],
           .ret none "failed to set finalizer" (some (.msg "cannot persist finalizer"))) := by
  have h := claim_C4
    { baseEnv with createFinalizer := some (.msg "cannot persist finalizer") } ⟨"pg", "prod"⟩
  exact ⟨h.1, h.2 (.msg "cannot persist finalizer") rfl⟩

/-- Claim C5 counterexample: for a request whose backing resource is
absent, `DeletePostgres` does not return without error — it panics. -/
theorem claim_C5_counterexample :
    DeletePostgres ⟨"absent-resource", "prod"⟩ = DelOutcome.panicked "implement me" := by
  rfl

/-- Claim C5 amended: `DeletePostgres` is unimplemented — for every
request, the backing resource absent or not, it panics with
"implement me" and never returns, with or without an error. -/
theorem claim_C5 (ps : PostgresReq) :
    DeletePostgres ps = DelOutcome.panicked "implement me" := by
  rfl

/-- Claim C6: under the generator's contract, every successful
`GeneratePassword` call returns a 32-character string with at least 10
digit characters and no repeated character (in particular never the empty
string), and when entropy cannot be sourced it returns the empty string
together with a wrapped generation error. -/
theorem claim_C6 (gen : Except Err String)
    (hc : ∀ s, gen = .ok s → generateContract s) :
    (∀ s, GeneratePassword gen = (s, none) →
        s.length = 32 ∧ 10 ≤ digitCount s ∧ s.toList.Nodup ∧ s ≠ "")
    ∧ ∀ e, gen = .error e →
        GeneratePassword gen = ("", some (Err.wrapped "error generating password" e)) := by
  constructor
  · intro s hs
    cases gen with
    | error e => simp [GeneratePassword] at hs
    | ok s0 =>
      have hss : s0 = s := by simpa [GeneratePassword] using hs
      subst hss
      obtain ⟨h1, h2, h3⟩ := hc s0 rfl
      refine ⟨h1, h2, h3, ?_⟩
      intro hempty
      rw [hempty] at h1
      simp at h1
  · intro e he
    subst he
    rfl

/-- Claim C6 witness: the statement applied to the successful generation
of a concrete contract-satisfying password. -/
theorem claim_C6_witness :
    GeneratePassword (Except.ok testPassword) = (testPassword, none)
    ∧ testPassword.length = 32 ∧ 10 ≤ digitCount testPassword
    ∧ testPassword.toList.Nodup ∧ testPassword ≠ "" := by
  have h := (claim_C6 (Except.ok testPassword)
    (by intro s hs; injection hs with h0; subst h0; decide)).1 testPassword rfl
  exact ⟨rfl, h⟩

/-- A run of `CreatePostgres` whose only departure from the healthy world
is that the entropy source fails, so password generation errors out. -/
def genFailEnv : PgEnv :=
  { baseEnv with generatePassword := .error (.msg "entropy source unavailable") }

/-- Claim C7, evaluated at the failing input: when password generation
fails, `buildDefaultPostgresSecret` returns nil and no credentials secret
is ever written (no create-or-update call appears in the trace) — but the
reconcile attempt does not fail with an error value as the claim states:
`CreatePostgres` passes the nil secret to `controllerutil.CreateOrUpdate`,
which dereferences it for its object key, a nil-pointer panic. -/
theorem claim_C7 :
    buildDefaultPostgresSecret (.error (.msg "entropy source unavailable")) ⟨"test", "test"⟩
      = none
    ∧ CreatePostgres genFailEnv ⟨"test", "test"⟩
        = ([Call.createFinalizer, Call.getClusterConfig, Call.setAuthEnvVars],
           .panicked "nil pointer dereference: secret object key")
    ∧ Call.createOrUpdateSecret ∉ (CreatePostgres genFailEnv ⟨"test", "test"⟩).1 := by
  refine ⟨rfl, by decide, by decide⟩

/-- A run of `CreatePostgres` in which the cluster-configuration payload
is not valid JSON (the unmarshal fails on every input) and no existing
instance matches, so the provider creates one using the silently
zero-valued configuration. -/
def badCfgEnv : PgEnv :=
  { baseEnv with
    clusterConfigGet := (some { name := "cloud-provider-config", ns := "openshift-config"
                                data := [("config", "not valid json")] }, none)
    unmarshalClusterConfig := fun _ => .error (.msg "invalid character")
    listInstances := (⟨some []⟩, none) }

/-- Claim C8 counterexample: `CreatePostgres` reads a cluster
configuration whose payload is not valid JSON, yet surfaces no parse
error: the run completes with a nil error, having silently used the
zero-valued `ClusterConfig` — its instance-creation call carries the empty
resource group and location. -/
theorem claim_C8_counterexample :
    parsedClusterConfig (fun _ => .error (.msg "invalid character")) "not valid json"
      = ClusterConfig.zero
    ∧ (CreatePostgres badCfgEnv ⟨"test", "test"⟩).2
        = .ret (some { username := "postgres", password := testPassword
                       host := "created.example.com", database := "postgres", port := 5432 })
            "completed" none
    ∧ Call.createPostgresInstance "" "" ∈ (CreatePostgres badCfgEnv ⟨"test", "test"⟩).1 := by
  refine ⟨rfl, by decide, by decide⟩

/-- Claim C8 amended: `ReadStorageStrategy` surfaces a malformed strategy
payload as a wrapped parse error in its returned error value, but the
cluster-configuration parse inside `CreatePostgres` ignores the unmarshal
error and silently proceeds with the zero-valued configuration. -/
theorem claim_C8 :
    (∀ (cl : Cluster) (unm : String → Except Err (List (String × Option StrategyConfig)))
       (nm ns rt tier : String) (cm : ConfigMap) (e : Err),
       clusterGetConfigMap cl nm ns = .ok cm → cm.get rt ≠ "" →
       unm (cm.get rt) = .error e →
       readStorageStrategy cl unm nm ns rt tier
         = .error (.wrapped ("failed to unmarshal strategy mapping for resource type " ++ rt) e))
    ∧ ∀ (unm : String → Except Err ClusterConfig) (payload : String) (e : Err),
        unm payload = .error e → parsedClusterConfig unm payload = ClusterConfig.zero := by
  constructor
  · intro cl unm nm ns rt tier cm e hget hraw hunm
    unfold readStorageStrategy
    rw [hget]
    simp only [if_neg hraw, hunm]
  · intro unm payload e hunm
    unfold parsedClusterConfig
    rw [hunm]

/-- The strategy ConfigMap fixture whose postgres payload is malformed. -/
def strategyCM : ConfigMap :=
  { name := "cloud-resources-openshift-strategies", ns := "kube-system"
    data := [("postgres", "not valid json")] }

/-- Claim C8 witness: the amended statement applied to a store holding a
malformed postgres strategy payload and to a failing cluster-config
unmarshal. -/
theorem claim_C8_witness :
    readStorageStrategy ⟨[strategyCM]⟩ (fun _ => .error (.msg "invalid character"))
      "cloud-resources-openshift-strategies" "kube-system" "postgres" "production"
      = .error (.wrapped "failed to unmarshal strategy mapping for resource type postgres"
          (.msg "invalid character"))
    ∧ parsedClusterConfig (fun _ => .error (.msg "invalid character")) "some payload"
        = ClusterConfig.zero := by
  constructor
  · exact claim_C8.1 ⟨[strategyCM]⟩ (fun _ => .error (.msg "invalid character"))
      "cloud-resources-openshift-strategies" "kube-system" "postgres" "production"
      strategyCM (.msg "invalid character") (by rfl) (by decide) rfl
  · exact claim_C8.2 (fun _ => .error (.msg "invalid character")) "some payload"
      (.msg "invalid character") rfl

/-- Claim C9 counterexample: with the override variable set to "30" the
function returns a duration of 30 — thirty nanoseconds in the
`time.Duration` unit — which is not the 30-second duration the claim
states (and differs from the supplied default). -/
theorem claim_C9_counterexample :
    getForcedReconcileTimeOrDefault (some "30") (timeSecond * 60) = 30
    ∧ (30 : Int) ≠ timeSecond * 30 := by
  refine ⟨by decide, by decide⟩

/-- Claim C9 amended: `GetForcedReconcileTimeOrDefault` returns the
supplied default unchanged when the override variable is absent or fails
integer parsing, and when the variable holds a parseable integer n it
returns a duration of n nanoseconds — `time.Duration(rt)` without any unit
multiplication — not n seconds. -/
theorem claim_C9 (d : Int) :
    getForcedReconcileTimeOrDefault none d = d
    ∧ (∀ s, parseInt64 s = none → getForcedReconcileTimeOrDefault (some s) d = d)
    ∧ ∀ s n, parseInt64 s = some n → getForcedReconcileTimeOrDefault (some s) d = n := by
  refine ⟨rfl, ?_, ?_⟩
  · intro s h
    simp [getForcedReconcileTimeOrDefault, h]
  · intro s n h
    simp [getForcedReconcileTimeOrDefault, h]

/-- Claim C9 witness: the amended statement applied to the absent
variable, an unparseable value, and the value "30". -/
theorem claim_C9_witness :
    getForcedReconcileTimeOrDefault none (timeSecond * 60) = timeSecond * 60
    ∧ getForcedReconcileTimeOrDefault (some "not-a-number") (timeSecond * 60) = timeSecond * 60
    ∧ getForcedReconcileTimeOrDefault (some "30") (timeSecond * 60) = 30 := by
  refine ⟨(claim_C9 (timeSecond * 60)).1,
    (claim_C9 (timeSecond * 60)).2.1 "not-a-number" (by decide),
    (claim_C9 (timeSecond * 60)).2.2 "30" 30 (by decide)⟩

/-- A run of `CreatePostgres` in which the environment-variable writes of
the authentication setup fail, the Azure postgres and subnets clients
cannot be constructed, and both the subnet update and the vnet-rule
creation fail. -/
def c10Env : PgEnv :=
  { baseEnv with
    setenv := fun _ _ => some (.msg "setenv failed")
    getPostgresClient := some (.msg "no azure authorizer")
    getSubnetsClient := some (.msg "no azure authorizer")
    updateSubnet := some (.msg "subnet update rejected")
    createVnetRule := some (.msg "vnet rule rejected") }

/-- Claim C10: there is an execution of `CreatePostgres` that returns the
"completed" status with a nil error although its authentication setup,
client construction, subnet update, and vnet-rule creation all failed —
those failures are only logged, and `authEnvVars` returns nil
unconditionally — so a nil error does not imply full provisioning. -/
theorem claim_C10 :
    (CreatePostgres c10Env ⟨"test", "test"⟩).2
      = .ret (some { username := "postgres", password := testPassword
                     host := "test.example.com", database := "postgres", port := 5432 })
          "completed" none
    ∧ c10Env.updateSubnet = some (.msg "subnet update rejected")
    ∧ c10Env.createVnetRule = some (.msg "vnet rule rejected")
    ∧ c10Env.getPostgresClient = some (.msg "no azure authorizer")
    ∧ (∀ k v, c10Env.setenv k v = some (.msg "setenv failed"))
    ∧ ∀ (unm : String → Except Err AuthCredentials)
        (st : String → String → Option Err) (cm : ConfigMap),
        (authEnvVars unm st cm).2 = none := by
  refine ⟨by decide, rfl, rfl, rfl, fun k v => rfl, fun unm st cm => rfl⟩
